import Mathlib

/-!
Shallow embedding of `footprint.py` (74hc595/footprint), a DSL that builds
gEDA pcb footprint definitions, together with proofs about the claims of
its specification.

Modelling conventions:
* Lengths and coordinates are rationals (the Python code uses floats, but
  every operation involved is field arithmetic, so ℚ is the faithful
  exact model).
* A Python attribute that may be absent, `None`, or a number is modelled
  by the three-valued type `Attr` below.  Reading an absent attribute is
  an `AttributeError`; using `None` in arithmetic is a `TypeError`.
* Fallible code returns `Except PyErr _`.
* `__mil_to_unit(mil)` is the module-level helper `round(mil * 100)`,
  modelled by `milToUnit` below.  Every call to it in the source sits
  inside a class body, where Python name-mangles the double-underscore
  identifier to `_Pad__mil_to_unit`, `_Footprint__mil_to_unit`, and so
  on — names that do not exist.  Likewise line 301 writes `__self.name`
  (mangled to the undefined `_Pin__self`).  The serialization methods
  therefore always raise `NameError` before emitting anything, and the
  embedding models exactly that: every `pcbRepr` fails with
  `PyErr.nameError` at the point where the source evaluates the mangled
  name, after whatever attribute reads the source performs first.
* `round` is modelled by Mathlib `round` (round half up).  Python 3
  rounds halves to even; no statement below evaluates it at a tie.
-/

deriving instance DecidableEq for Except

/-- Python errors that the modelled code can raise. -/
inductive PyErr
  | attrError
  | typeError
  | keyError
  | indexError
  | zeroDivError
  | nameError
deriving DecidableEq, Repr

/-- State of a dynamically-set numeric attribute of a shape object:
absent from the instance, set to `None`, or set to a number. -/
inductive Attr
  | missing
  | pynone
  | val (q : ℚ)
deriving DecidableEq, Repr

/-- `getattr(base, key, None)`: an absent attribute reads as `None`. -/
def Attr.fromBase : Attr → Attr
  | .missing => .pynone
  | a => a

/-- `between(a, b, t)` from the source: linear interpolation
`a + (b-a)*t`.  The source gives `t` the default value `0.5`. -/
def between (a b t : ℚ) : ℚ := a + (b - a) * t

/-- `__mil_to_unit(mil)` from the source: mils to 1/100-mil native
units, rounded to the nearest integer. -/
def milToUnit (mil : ℚ) : ℤ := round (mil * 100)

/-- Surface-mount pad (`class Pad`).  `Shape.__init__` sets `name = ""`
and `number = ""`; `Pad.__init__` sets `round = False` and then fills the
geometry attributes from `base` and the keyword arguments.  The stored
`number` is either the initial empty string (modelled `none`) or an
integer (modelled `some n`). -/
structure Pad where
  left : Attr
  width : Attr
  top : Attr
  height : Attr
  round : Bool
  name : String
  number : Option ℤ
deriving DecidableEq, Repr

/-- Default value, in mils, of the clearance width (`Pad.clearance`). -/
def Pad.clearanceDefault : ℚ := 1

/-- Keyword arguments accepted by `Pad.__init__` (a `none` field models
an absent keyword; the source skips keys whose value `is None`). -/
structure PadKwargs where
  base : Option Pad
  left : Option ℚ
  width : Option ℚ
  top : Option ℚ
  height : Option ℚ
  right : Option ℚ
  x : Option ℚ
  bottom : Option ℚ
  y : Option ℚ
  number : Option ℤ
  name : Option String
  round : Option Bool
deriving Repr

/-- `PadKwargs` with every keyword absent. -/
def PadKwargs.empty : PadKwargs :=
  ⟨none, none, none, none, none, none, none, none, none, none, none, none⟩

/-- Fresh pad state after `Shape.__init__` and `self.round = False`
(geometry attributes not yet set on the instance). -/
def Pad.base0 : Pad := ⟨.missing, .missing, .missing, .missing, false, "", none⟩

/-- Copy of the inheritable keys `left, width, top, height, number,
name, round` from a base pad (`setattr(self, key, getattr(base, key,
None))`). -/
def Pad.withBase (b : Pad) : Pad :=
  { left := b.left.fromBase
    width := b.width.fromBase
    top := b.top.fromBase
    height := b.height.fromBase
    round := b.round
    name := b.name
    number := b.number }

/-- Application of the explicitly supplied primary keywords
(`left, width, top, height, number, name, round`); each one present
overwrites the attribute, the rest are kept. -/
def Pad.setPrim (p : Pad) (k : PadKwargs) : Pad :=
  { left := match k.left with | some v => .val v | none => p.left
    width := match k.width with | some v => .val v | none => p.width
    top := match k.top with | some v => .val v | none => p.top
    height := match k.height with | some v => .val v | none => p.height
    number := match k.number with | some n => some n | none => p.number
    name := k.name.getD p.name
    round := k.round.getD p.round }

/-- Setter of derived attribute `right`: if `self.width is not None`
then `self.left = value - self.width`, else `self.width = value -
self.left`. -/
def Pad.rightSet (p : Pad) (v : ℚ) : Except PyErr Pad :=
  match p.width with
  | .missing => .error .attrError
  | .val w => .ok { p with left := .val (v - w) }
  | .pynone =>
    match p.left with
    | .missing => .error .attrError
    | .pynone => .error .typeError
    | .val l => .ok { p with width := .val (v - l) }

/-- Setter of derived attribute `x`:
`self.left = value - self.width/2.`. -/
def Pad.xSet (p : Pad) (v : ℚ) : Except PyErr Pad :=
  match p.width with
  | .missing => .error .attrError
  | .pynone => .error .typeError
  | .val w => .ok { p with left := .val (v - w / 2) }

/-- Setter of derived attribute `bottom`: if `self.height is not None`
then `self.top = value - self.height`, else `self.height = value -
self.top`. -/
def Pad.bottomSet (p : Pad) (v : ℚ) : Except PyErr Pad :=
  match p.height with
  | .missing => .error .attrError
  | .val h => .ok { p with top := .val (v - h) }
  | .pynone =>
    match p.top with
    | .missing => .error .attrError
    | .pynone => .error .typeError
    | .val t => .ok { p with height := .val (v - t) }

/-- Setter of derived attribute `y`:
`self.top = value - self.height/2.`. -/
def Pad.ySet (p : Pad) (v : ℚ) : Except PyErr Pad :=
  match p.height with
  | .missing => .error .attrError
  | .pynone => .error .typeError
  | .val h => .ok { p with top := .val (v - h / 2) }

/-- Application of the derived keywords in the order `right, x, bottom,
y` (the tail of `all_keys` in the source), each one running its setter
logic. -/
def Pad.derivedPhase (p1 : Pad) (k : PadKwargs) : Except PyErr Pad :=
  match (match k.right with | some v => p1.rightSet v | none => .ok p1) with
  | .error e => .error e
  | .ok p2 =>
    match (match k.x with | some v => p2.xSet v | none => .ok p2) with
    | .error e => .error e
    | .ok p3 =>
      match (match k.bottom with | some v => p3.bottomSet v | none => .ok p3) with
      | .error e => .error e
      | .ok p4 =>
        match k.y with | some v => p4.ySet v | none => .ok p4

/-- `Pad.__init__`: default state, optional base copy, primary keywords,
then the derived keywords. -/
def Pad.init (k : PadKwargs) : Except PyErr Pad :=
  Pad.derivedPhase
    (Pad.setPrim (match k.base with | some b => Pad.withBase b | none => Pad.base0) k) k

/-- Getter of `right`: `self.left + self.width` (the left operand is
read first, so its `AttributeError` wins). -/
def Pad.rightGet (p : Pad) : Except PyErr ℚ :=
  match p.left, p.width with
  | .missing, _ => .error .attrError
  | _, .missing => .error .attrError
  | .pynone, _ => .error .typeError
  | _, .pynone => .error .typeError
  | .val l, .val w => .ok (l + w)

/-- Getter of `x`: `between(self.left, self.right)`; both arguments are
evaluated before `between` runs its arithmetic. -/
def Pad.xGet (p : Pad) : Except PyErr ℚ :=
  match p.left with
  | .missing => .error .attrError
  | .pynone => (p.rightGet).bind fun _ => .error .typeError
  | .val l => (p.rightGet).map fun r => between l r (1 / 2)

/-- Getter of `bottom`: `self.top + self.height`. -/
def Pad.bottomGet (p : Pad) : Except PyErr ℚ :=
  match p.top, p.height with
  | .missing, _ => .error .attrError
  | _, .missing => .error .attrError
  | .pynone, _ => .error .typeError
  | _, .pynone => .error .typeError
  | .val t, .val h => .ok (t + h)

/-- Getter of `y`: `between(self.top, self.bottom)`. -/
def Pad.yGet (p : Pad) : Except PyErr ℚ :=
  match p.top with
  | .missing => .error .attrError
  | .pynone => (p.bottomGet).bind fun _ => .error .typeError
  | .val t => (p.bottomGet).map fun b => between t b (1 / 2)

/-- Plated-through hole (`class Pin`); `round` defaults to `True`. -/
structure Pin where
  x : Attr
  y : Attr
  hole : Attr
  diameter : Attr
  round : Bool
  name : String
  number : Option ℤ
deriving DecidableEq, Repr

/-- Default value, in mils, of the clearance width (`Pin.clearance`). -/
def Pin.clearanceDefault : ℚ := 2

/-- Default solder-mask offset (`Pin.mask_offset`). -/
def Pin.maskOffsetDefault : ℚ := 1

/-- Keyword arguments accepted by `Pin.__init__`. -/
structure PinKwargs where
  base : Option Pin
  x : Option ℚ
  y : Option ℚ
  hole : Option ℚ
  diameter : Option ℚ
  number : Option ℤ
  name : Option String
  round : Option Bool
deriving Repr

/-- `PinKwargs` with every keyword absent. -/
def PinKwargs.empty : PinKwargs := ⟨none, none, none, none, none, none, none, none⟩

/-- Fresh pin state after `Shape.__init__` and `self.round = True`. -/
def Pin.base0 : Pin := ⟨.missing, .missing, .missing, .missing, true, "", none⟩

/-- Copy of the keys `x, y, hole, diameter, number, name, round` from a
base pin. -/
def Pin.withBase (b : Pin) : Pin :=
  { x := b.x.fromBase
    y := b.y.fromBase
    hole := b.hole.fromBase
    diameter := b.diameter.fromBase
    round := b.round
    name := b.name
    number := b.number }

/-- `Pin.__init__`: all keys are primary attributes, so construction
never fails. -/
def Pin.init (k : PinKwargs) : Pin :=
  let p0 := match k.base with | some b => Pin.withBase b | none => Pin.base0
  { x := match k.x with | some v => .val v | none => p0.x
    y := match k.y with | some v => .val v | none => p0.y
    hole := match k.hole with | some v => .val v | none => p0.hole
    diameter := match k.diameter with | some v => .val v | none => p0.diameter
    number := match k.number with | some n => some n | none => p0.number
    name := k.name.getD p0.name
    round := k.round.getD p0.round }

/-- A line on the silkscreen layer (`class SilkLine`). -/
structure SilkLine where
  x1 : ℚ
  y1 : ℚ
  x2 : ℚ
  y2 : ℚ
  thickness : ℚ
deriving DecidableEq, Repr

/-- `SilkLine.default_thickness`. -/
def SilkLine.defaultThickness : ℚ := 10

/-- `SilkLine.__init__`: the two endpoints plus an optional thickness
keyword, defaulting to `SilkLine.default_thickness`. -/
def SilkLine.init (x1 y1 x2 y2 : ℚ) (thickness : Option ℚ) : SilkLine :=
  ⟨x1, y1, x2, y2, thickness.getD SilkLine.defaultThickness⟩

/-- A series of connected line segments on the silkscreen layer
(`class SilkPolyline`): only the expanded segment list is stored. -/
structure SilkPolyline where
  segments : List SilkLine
deriving DecidableEq, Repr

/-- The accumulation loop of `SilkPolyline.__init__`: walk the points,
emitting a segment from the previous point to the current one; returns
the segments together with the final `last_point`. -/
def polyLoop (th : ℚ) : List (ℚ × ℚ) → Option (ℚ × ℚ) → List SilkLine × Option (ℚ × ℚ)
  | [], last => ([], last)
  | (x, y) :: rest, last =>
    let first : List SilkLine :=
      match last with
      | none => []
      | some (lx, ly) => [⟨lx, ly, x, y, th⟩]
    let (more, fin) := polyLoop th rest (some (x, y))
    (first ++ more, fin)

/-- `SilkPolyline.__init__`.  When `closed` is `True` the source appends
`SilkLine(last_point[0], last_point[1], self.segments[0].x1,
self.segments[0].y1)`; with no points `last_point` is `None`
(`TypeError` on subscripting), and with a single point `segments` is
empty (`IndexError`). -/
def SilkPolyline.init (points : List (ℚ × ℚ)) (thickness : Option ℚ) (closed : Bool) :
    Except PyErr SilkPolyline :=
  let th := thickness.getD SilkLine.defaultThickness
  let r := polyLoop th points none
  if closed then
    match r.2 with
    | none => .error .typeError
    | some (lx, ly) =>
      match r.1 with
      | [] => .error .indexError
      | s0 :: _ => .ok ⟨r.1 ++ [⟨lx, ly, s0.x1, s0.y1, th⟩]⟩
  else .ok ⟨r.1⟩

/-- An arc on the silkscreen layer (`class SilkArc`). -/
structure SilkArc where
  x : ℚ
  y : ℚ
  x_radius : Option ℚ
  y_radius : Option ℚ
  start_angle : ℚ
  delta_angle : ℚ
  thickness : ℚ
deriving DecidableEq, Repr

/-- Keyword arguments accepted by `SilkArc.__init__`. -/
structure SilkArcKwargs where
  x_radius : Option ℚ
  y_radius : Option ℚ
  start_angle : Option ℚ
  delta_angle : Option ℚ
  thickness : Option ℚ
  radius : Option ℚ
  diameter : Option ℚ
deriving Repr

/-- `SilkArcKwargs` with every keyword absent. -/
def SilkArcKwargs.empty : SilkArcKwargs := ⟨none, none, none, none, none, none, none⟩

/-- Setter of the `radius` convenience property: sets both axis radii. -/
def SilkArc.radiusSet (a : SilkArc) (v : ℚ) : SilkArc :=
  { a with x_radius := some v, y_radius := some v }

/-- Setter of the `diameter` convenience property:
`self.radius = value/2.`. -/
def SilkArc.diameterSet (a : SilkArc) (v : ℚ) : SilkArc := a.radiusSet (v / 2)

/-- `SilkArc.__init__`: stores center, optional axis radii,
`start_angle` (default 0), `delta_angle` (default 360), thickness, then
applies the `radius` and `diameter` convenience keywords in that
order. -/
def SilkArc.init (x y : ℚ) (k : SilkArcKwargs) : SilkArc :=
  let a : SilkArc :=
    ⟨x, y, k.x_radius, k.y_radius, k.start_angle.getD 0, k.delta_angle.getD 360,
      k.thickness.getD SilkLine.defaultThickness⟩
  let a := match k.radius with | some r => a.radiusSet r | none => a
  match k.diameter with | some d => a.diameterSet d | none => a

/-- Field values a `Pad[...]` record line would carry (the source never
actually produces one, see `Pad.pcbRepr`). -/
structure PadRec where
  x1 : ℤ
  y1 : ℤ
  x2 : ℤ
  y2 : ℤ
  thickness : ℤ
  clearance : ℤ
  mask : ℤ
  name : String
  number : Option ℤ
  flags : ℕ
deriving DecidableEq, Repr

/-- `Pad.pcb_repr(tx, ty)`: the branch on the strict comparison
`width > height` runs first, reading `width`, `height`, then — in the
horizontal branch — `left`, `y`, `right`, or — in the vertical branch —
`x`, `top`, `bottom`.  The `return` statement then evaluates its first
format argument, whose callee `__mil_to_unit` is name-mangled to the
undefined `_Pad__mil_to_unit`: a `NameError`, so no `Pad[...]` record
is ever emitted. -/
def Pad.pcbRepr (p : Pad) (tx ty : ℚ) : Except PyErr PadRec :=
  match p.width with
  | .missing => .error .attrError
  | .pynone => .error .typeError
  | .val w =>
    match p.height with
    | .missing => .error .attrError
    | .pynone => .error .typeError
    | .val h =>
      if w > h then
        match p.left with
        | .missing => .error .attrError
        | .pynone => .error .typeError
        | .val _ =>
          match p.yGet with
          | .error e => .error e
          | .ok _ =>
            match p.rightGet with
            | .error e => .error e
            | .ok _ => .error .nameError
      else
        match p.xGet with
        | .error e => .error e
        | .ok _ =>
          match p.top with
          | .missing => .error .attrError
          | .pynone => .error .typeError
          | .val _ =>
            match p.bottomGet with
            | .error e => .error e
            | .ok _ => .error .nameError

/-- Field values a `Pin[...]` record line would carry (the source never
actually produces one, see `Pin.pcbRepr`). -/
structure PinRec where
  x : ℤ
  y : ℤ
  diameter : ℤ
  clearance : ℤ
  mask : ℤ
  hole : ℤ
  name : String
  number : Option ℤ
  flags : ℕ
deriving DecidableEq, Repr

/-- `Pin.pcb_repr(tx, ty)`: the whole body is one `return` of a format
expression.  Its first argument is a call whose callee `__mil_to_unit`
is name-mangled to the undefined `_Pin__mil_to_unit`, and the callee is
looked up before `self.x` is read, so the method raises `NameError`
before reading a single attribute.  (Line 301 of the source also writes
`__self.name`, mangled to the equally undefined `_Pin__self`.)  No
`Pin[...]` record is ever emitted, regardless of the pin state. -/
def Pin.pcbRepr (p : Pin) (tx ty : ℚ) : Except PyErr PinRec :=
  .error .nameError

/-- Field values an `ElementLine[...]` record line would carry (the
source never actually produces one, see `SilkLine.pcbRepr`). -/
structure LineRec where
  x1 : ℤ
  y1 : ℤ
  x2 : ℤ
  y2 : ℤ
  thickness : ℤ
deriving DecidableEq, Repr

/-- `SilkLine.pcb_repr(tx, ty)`: the first format argument looks up the
name-mangled, undefined `_SilkLine__mil_to_unit` — a `NameError` before
anything is emitted. -/
def SilkLine.pcbRepr (s : SilkLine) (tx ty : ℚ) : Except PyErr LineRec :=
  .error .nameError

/-- The `"\n".join` of `SilkPolyline.pcb_repr`, segment by segment; the
first failing segment aborts the traversal. -/
def joinSegments (tx ty : ℚ) : List SilkLine → Except PyErr (List LineRec)
  | [] => .ok []
  | seg :: rest =>
    match seg.pcbRepr tx ty with
    | .error e => .error e
    | .ok r =>
      match joinSegments tx ty rest with
      | .error e => .error e
      | .ok more => .ok (r :: more)

/-- `SilkPolyline.pcb_repr(tx, ty)`: an empty segment list joins to the
empty string; otherwise the first segment raises the `NameError` of
`SilkLine.pcb_repr`. -/
def SilkPolyline.pcbRepr (s : SilkPolyline) (tx ty : ℚ) : Except PyErr (List LineRec) :=
  joinSegments tx ty s.segments

/-- Field values an `ElementArc[...]` record line would carry (the
angle fields without unit conversion; the source never actually
produces one, see `SilkArc.pcbRepr`). -/
structure ArcRec where
  x : ℤ
  y : ℤ
  x_radius : ℤ
  y_radius : ℤ
  start_angle : ℚ
  delta_angle : ℚ
  thickness : ℤ
deriving DecidableEq, Repr

/-- `SilkArc.pcb_repr(tx, ty)`: the first format argument looks up the
name-mangled, undefined `_SilkArc__mil_to_unit` before any field
(including an unset, `None` radius) is touched — a `NameError` before
anything is emitted. -/
def SilkArc.pcbRepr (a : SilkArc) (tx ty : ℚ) : Except PyErr ArcRec :=
  .error .nameError

/-- A shape owned by a footprint. -/
inductive FShape
  | pad (p : Pad)
  | pin (p : Pin)
  | line (s : SilkLine)
  | poly (s : SilkPolyline)
  | arc (a : SilkArc)
deriving DecidableEq, Repr

/-- An emitted body record. -/
inductive FRec
  | padR (r : PadRec)
  | pinR (r : PinRec)
  | lineR (r : LineRec)
  | arcR (r : ArcRec)
deriving DecidableEq, Repr

/-- The record list a shape contributes to the footprint body (a
polyline contributes one `ElementLine` record per segment). -/
def FShape.render : FShape → ℚ → ℚ → Except PyErr (List FRec)
  | .pad p, tx, ty => (p.pcbRepr tx ty).map fun r => [.padR r]
  | .pin p, tx, ty => (p.pcbRepr tx ty).map fun r => [.pinR r]
  | .line s, tx, ty => (s.pcbRepr tx ty).map fun r => [.lineR r]
  | .poly s, tx, ty => (s.pcbRepr tx ty).map fun rs => rs.map .lineR
  | .arc a, tx, ty => (a.pcbRepr tx ty).map fun r => [.arcR r]

/-- The footprint container (`class Footprint`). -/
structure Footprint where
  name : String
  description : String
  markX : ℚ
  markY : ℚ
  textX : ℚ
  textY : ℚ
  textDirection : ℤ
  textScale : ℤ
  shapes : List FShape
  pinpadcounter : ℤ
deriving DecidableEq, Repr

/-- `Footprint.__init__`: the mark and text fields start at zero, the
text scale at 100, and the pin/pad auto-number counter at 1. -/
def Footprint.create (name : String) (description : Option String) : Footprint :=
  ⟨name, description.getD "", 0, 0, 0, 0, 0, 100, [], 1⟩

/-- The auto-numbering step shared by `add_pad` and `add_pin`: when the
`base` key is absent, `kwargs["number"] = kwargs.get("number", c)` where
`c` is the current pin/pad counter. -/
def PadKwargs.autoNum (k : PadKwargs) (c : ℤ) : PadKwargs :=
  if k.base.isSome then k else { k with number := some (k.number.getD c) }

/-- The auto-numbering step of `add_pin`. -/
def PinKwargs.autoNum (k : PinKwargs) (c : ℤ) : PinKwargs :=
  if k.base.isSome then k else { k with number := some (k.number.getD c) }

/-- `Footprint.add_pad`: auto-number, append the pad, increment the
counter unconditionally, and return the pad. -/
def Footprint.addPad (f : Footprint) (k : PadKwargs) : Except PyErr (Footprint × Pad) :=
  match Pad.init (k.autoNum f.pinpadcounter) with
  | .error e => .error e
  | .ok p =>
    .ok ({ f with
            shapes := f.shapes ++ [.pad p]
            pinpadcounter := f.pinpadcounter + 1 }, p)

/-- `Footprint.add_pin`: same counter logic as `add_pad`;
`Pin.__init__` cannot fail. -/
def Footprint.addPin (f : Footprint) (k : PinKwargs) : Footprint × Pin :=
  ({ f with
      shapes := f.shapes ++ [.pin (Pin.init (k.autoNum f.pinpadcounter))]
      pinpadcounter := f.pinpadcounter + 1 }, Pin.init (k.autoNum f.pinpadcounter))

/-- The `dx`/`dy` step argument of the array placement methods: either
a scalar or a tuple (the source tests `isinstance(dx, tuple)`). -/
inductive Step
  | scalar (q : ℚ)
  | tup (l : List ℚ)
deriving DecidableEq, Repr

/-- The step applied after placing shape `i`: a scalar is used as is, a
tuple is indexed by `i % len`; `i % len(())` is a division by zero. -/
def Step.app (s : Step) (i : ℕ) : Except PyErr ℚ :=
  match s with
  | .scalar q => .ok q
  | .tup [] => .error .zeroDivError
  | .tup l => .ok (l.getD (i % l.length) 0)

/-- Total description of the step value used at index `i` (equal to
`Step.app` whenever the latter succeeds). -/
def stepD (s : Step) (i : ℕ) : ℚ :=
  match s with
  | .scalar q => q
  | .tup l => l.getD (i % l.length) 0

/-- Sum of the steps applied at indices `start, start+1, ...,
start+len-1`; the position of the shape placed at index `start+len`
exceeds the one placed at `start` by this amount. -/
def stepSum (s : Step) (start len : ℕ) : ℚ :=
  ((List.range len).map fun t => stepD s (start + t)).sum


/-- Keyword arguments of `Footprint.add_pads` (those of `Pad.__init__`
plus the step keywords `dx`, `dy`). -/
structure PadArrayKwargs where
  base : Option Pad
  left : Option ℚ
  width : Option ℚ
  top : Option ℚ
  height : Option ℚ
  right : Option ℚ
  x : Option ℚ
  bottom : Option ℚ
  y : Option ℚ
  number : Option ℤ
  name : Option String
  round : Option Bool
  dx : Option Step
  dy : Option Step
deriving Repr

/-- `PadArrayKwargs` with every keyword absent. -/
def PadArrayKwargs.empty : PadArrayKwargs :=
  ⟨none, none, none, none, none, none, none, none, none, none, none, none, none, none⟩

/-- The kwargs dict as `Pad.__init__` sees it (`Pad.__init__` only looks
up its own keys, so `dx`/`dy` are dropped). -/
def PadArrayKwargs.toPad (k : PadArrayKwargs) : PadKwargs :=
  ⟨k.base, k.left, k.width, k.top, k.height, k.right, k.x, k.bottom, k.y,
    k.number, k.name, k.round⟩

/-- Keyword arguments of `Footprint.add_pins`. -/
structure PinArrayKwargs where
  base : Option Pin
  x : Option ℚ
  y : Option ℚ
  hole : Option ℚ
  diameter : Option ℚ
  number : Option ℤ
  name : Option String
  round : Option Bool
  dx : Option Step
  dy : Option Step
deriving Repr

/-- `PinArrayKwargs` with every keyword absent. -/
def PinArrayKwargs.empty : PinArrayKwargs :=
  ⟨none, none, none, none, none, none, none, none, none, none⟩

/-- The kwargs dict as `Pin.__init__` sees it. -/
def PinArrayKwargs.toPin (k : PinArrayKwargs) : PinKwargs :=
  ⟨k.base, k.x, k.y, k.hole, k.diameter, k.number, k.name, k.round⟩

/-- Loop body of `Footprint.__add_shapes` specialised to pads: at index
`i`, set `kwargs["number"] = number`, call `add_pad`, then advance
`kwargs["x"]` and `kwargs["y"]` by the step values for `i` (a `KeyError`
if the `x` or `y` key is absent) and increment the running number. -/
def Footprint.addPadsAux (f : Footprint) (k : PadArrayKwargs) (number : ℤ)
    (dx dy : Step) : ℕ → ℕ → Except PyErr (Footprint × List Pad)
  | _, 0 => .ok (f, [])
  | i, n + 1 =>
    match f.addPad { k with number := some number }.toPad with
    | .error e => .error e
    | .ok (f1, p) =>
      match k.x with
      | none => .error .keyError
      | some xv =>
        match dx.app i with
        | .error e => .error e
        | .ok sx =>
          match k.y with
          | none => .error .keyError
          | some yv =>
            match dy.app i with
            | .error e => .error e
            | .ok sy =>
              match f1.addPadsAux
                  { k with number := some number, x := some (xv + sx), y := some (yv + sy) }
                  (number + 1) dx dy (i + 1) n with
              | .error e => .error e
              | .ok (f2, ps) => .ok (f2, p :: ps)

/-- `Footprint.add_pads(count, **kwargs)`: seed the running number from
the `number` keyword or the counter, default both steps to 0, and run
the placement loop. -/
def Footprint.addPads (f : Footprint) (count : ℕ) (k : PadArrayKwargs) :
    Except PyErr (Footprint × List Pad) :=
  f.addPadsAux k (k.number.getD f.pinpadcounter) (k.dx.getD (.scalar 0))
    (k.dy.getD (.scalar 0)) 0 count

/-- Loop body of `Footprint.__add_shapes` specialised to pins. -/
def Footprint.addPinsAux (f : Footprint) (k : PinArrayKwargs) (number : ℤ)
    (dx dy : Step) : ℕ → ℕ → Except PyErr (Footprint × List Pin)
  | _, 0 => .ok (f, [])
  | i, n + 1 =>
    match k.x with
    | none => .error .keyError
    | some xv =>
      match dx.app i with
      | .error e => .error e
      | .ok sx =>
        match k.y with
        | none => .error .keyError
        | some yv =>
          match dy.app i with
          | .error e => .error e
          | .ok sy =>
            match (f.addPin { k with number := some number }.toPin).1.addPinsAux
                { k with number := some number, x := some (xv + sx), y := some (yv + sy) }
                (number + 1) dx dy (i + 1) n with
            | .error e => .error e
            | .ok (f2, ps) =>
              .ok (f2, (f.addPin { k with number := some number }.toPin).2 :: ps)

/-- `Footprint.add_pins(count, **kwargs)`. -/
def Footprint.addPins (f : Footprint) (count : ℕ) (k : PinArrayKwargs) :
    Except PyErr (Footprint × List Pin) :=
  f.addPinsAux k (k.number.getD f.pinpadcounter) (k.dx.getD (.scalar 0))
    (k.dy.getD (.scalar 0)) 0 count

/-- `Footprint.mark(pin_or_pad)` applied to a pad: sets the mark point
to the pad center (reading `x` and `y` through their getters). -/
def Footprint.markPad (f : Footprint) (p : Pad) : Except PyErr Footprint :=
  match p.xGet with
  | .error e => .error e
  | .ok x =>
    match p.yGet with
    | .error e => .error e
    | .ok y => .ok { f with markX := x, markY := y }

/-- In-place mutation of the shape stored at index `i` (Python shapes
are aliased by the list; a `setattr` on a stored shape is an update of
the list entry). -/
def Footprint.updateShape (f : Footprint) (i : ℕ) (s : FShape) : Footprint :=
  { f with shapes := f.shapes.set i s }

/-- The record lists of a shape list, concatenated in order; the first
failing shape aborts the traversal (the `join` over the shape list in
`Footprint.__str__`). -/
def renderShapes (tx ty : ℚ) : List FShape → Except PyErr (List FRec)
  | [] => .ok []
  | s :: rest =>
    match s.render tx ty with
    | .error e => .error e
    | .ok rs =>
      match renderShapes tx ty rest with
      | .error e => .error e
      | .ok more => .ok (rs ++ more)

/-- Body of `Footprint.__str__`: each owned shape renders translated by
`(-mark_x, -mark_y)`. -/
def Footprint.render (f : Footprint) : Except PyErr (List FRec) :=
  renderShapes (-f.markX) (-f.markY) f.shapes

/-- Field values the `Element[...]` header line of `Footprint.__str__`
would carry (the source never produces one: see `Footprint.header`). -/
structure ElementHeader where
  description : String
  name : String
  markX : ℤ
  markY : ℤ
  textX : ℤ
  textY : ℤ
  textDirection : ℤ
  textScale : ℤ
deriving DecidableEq, Repr

/-- The header line of `Footprint.__str__`: the format arguments read
`description` and `name` (plain instance attributes, always present),
and then the third argument looks up the name-mangled, undefined
`_Footprint__mil_to_unit` for `mark_x` — a `NameError` before the
header string is built. -/
def Footprint.header (_ : Footprint) : Except PyErr ElementHeader :=
  .error .nameError

/-- `Footprint.__str__` as structured data: the header (which always
fails) followed by the body records, so serialization as a whole always
raises `NameError` before reaching the body join. -/
def Footprint.serialize (f : Footprint) : Except PyErr (ElementHeader × List FRec) :=
  match f.header with
  | .error e => .error e
  | .ok hd =>
    match f.render with
    | .error e => .error e
    | .ok body => .ok (hd, body)

/-- True exactly on successful results. -/
def exOk {α : Type _} (e : Except PyErr α) : Bool :=
  match e with
  | .ok _ => true
  | .error _ => false

/-- The connected chain of segments from a start point through a point
list, all sharing thickness `th` (specification-side description of the
polyline expansion). -/
def chainFrom (th : ℚ) : ℚ × ℚ → List (ℚ × ℚ) → List SilkLine
  | _, [] => []
  | p, q :: rest => ⟨p.1, p.2, q.1, q.2, th⟩ :: chainFrom th q rest

/-- The open polyline chain of a point list. -/
def polyChain (th : ℚ) : List (ℚ × ℚ) → List SilkLine
  | [] => []
  | p :: rest => chainFrom th p rest

/-- The final value of the loop variable `last_point` given its current
value and the remaining points. -/
def lastPoint : List (ℚ × ℚ) → ℚ × ℚ → ℚ × ℚ
  | [], d => d
  | p :: rest, _ => lastPoint rest p


/-! ### Basic lemmas about the embedded operations -/

theorem Pad.rightSet_number {p p' : Pad} {v : ℚ} (h : p.rightSet v = .ok p') :
    p'.number = p.number := by
  unfold Pad.rightSet at h
  split at h <;> try split at h
  all_goals first
    | (injection h with h; subst h; rfl)
    | injection h

theorem Pad.xSet_number {p p' : Pad} {v : ℚ} (h : p.xSet v = .ok p') :
    p'.number = p.number := by
  unfold Pad.xSet at h
  split at h
  all_goals first
    | (injection h with h; subst h; rfl)
    | injection h

theorem Pad.bottomSet_number {p p' : Pad} {v : ℚ} (h : p.bottomSet v = .ok p') :
    p'.number = p.number := by
  unfold Pad.bottomSet at h
  split at h <;> try split at h
  all_goals first
    | (injection h with h; subst h; rfl)
    | injection h

theorem Pad.ySet_number {p p' : Pad} {v : ℚ} (h : p.ySet v = .ok p') :
    p'.number = p.number := by
  unfold Pad.ySet at h
  split at h
  all_goals first
    | (injection h with h; subst h; rfl)
    | injection h

theorem padOptSet_number {o : Option ℚ} {p p' : Pad}
    {set : Pad → ℚ → Except PyErr Pad}
    (hset : ∀ v, set p v = .ok p' → p'.number = p.number)
    (h : (match o with | some v => set p v | none => Except.ok p) = .ok p') :
    p'.number = p.number := by
  cases o with
  | none => injection h with h; rw [← h]
  | some v => exact hset v h

theorem Pad.derivedPhase_number {p1 : Pad} {k : PadKwargs} {p : Pad}
    (h : Pad.derivedPhase p1 k = .ok p) : p.number = p1.number := by
  unfold Pad.derivedPhase at h
  split at h
  · injection h
  · rename_i p2 heq2
    split at h
    · injection h
    · rename_i p3 heq3
      split at h
      · injection h
      · rename_i p4 heq4
        have h4 : p.number = p4.number :=
          padOptSet_number (fun v hv => Pad.ySet_number hv) h
        have h3 : p4.number = p3.number :=
          padOptSet_number (fun v hv => Pad.bottomSet_number hv) heq4
        have h2 : p3.number = p2.number :=
          padOptSet_number (fun v hv => Pad.xSet_number hv) heq3
        have h1 : p2.number = p1.number :=
          padOptSet_number (fun v hv => Pad.rightSet_number hv) heq2
        rw [h4, h3, h2, h1]

theorem Pad.init_number {k : PadKwargs} {p : Pad} {m : ℤ} (hm : k.number = some m)
    (h : Pad.init k = .ok p) : p.number = some m := by
  unfold Pad.init at h
  rw [Pad.derivedPhase_number h]
  simp [Pad.setPrim, hm]

theorem PadKwargs.autoNum_number {k : PadKwargs} {c : ℤ} {m : ℤ}
    (hm : k.number = some m) : (k.autoNum c).number = some m := by
  unfold PadKwargs.autoNum
  split <;> simp [hm]

theorem Footprint.addPad_ok {f : Footprint} {k : PadKwargs} {f' : Footprint} {p : Pad}
    (h : f.addPad k = .ok (f', p)) :
    f'.pinpadcounter = f.pinpadcounter + 1 ∧ f'.shapes = f.shapes ++ [.pad p] := by
  unfold Footprint.addPad at h
  split at h
  · injection h
  · rename_i p0 heq
    injection h with h
    injection h with h1 h2
    subst h1; subst h2
    exact ⟨rfl, rfl⟩

theorem Footprint.addPad_number {f : Footprint} {k : PadKwargs} {f' : Footprint}
    {p : Pad} {m : ℤ} (hm : k.number = some m) (h : f.addPad k = .ok (f', p)) :
    p.number = some m := by
  unfold Footprint.addPad at h
  split at h
  · injection h
  · rename_i p0 heq
    injection h with h
    injection h with h1 h2
    subst h2
    exact Pad.init_number (PadKwargs.autoNum_number hm) heq

theorem Pin.init_num {k : PinKwargs} {m : ℤ} (hm : k.number = some m) :
    (Pin.init k).number = some m := by
  simp [Pin.init, hm]

theorem Pin.init_x {k : PinKwargs} {v : ℚ} (hv : k.x = some v) :
    (Pin.init k).x = .val v := by
  simp [Pin.init, hv]

theorem Pin.init_y {k : PinKwargs} {v : ℚ} (hv : k.y = some v) :
    (Pin.init k).y = .val v := by
  simp [Pin.init, hv]

theorem PinKwargs.autoNum_num {k : PinKwargs} {c : ℤ} {m : ℤ}
    (hm : k.number = some m) : (k.autoNum c).number = some m := by
  unfold PinKwargs.autoNum
  split <;> simp [hm]

theorem PinKwargs.autoNum_x (k : PinKwargs) (c : ℤ) : (k.autoNum c).x = k.x := by
  unfold PinKwargs.autoNum
  split <;> rfl

theorem PinKwargs.autoNum_y (k : PinKwargs) (c : ℤ) : (k.autoNum c).y = k.y := by
  unfold PinKwargs.autoNum
  split <;> rfl

theorem Footprint.addPin_counter (f : Footprint) (k : PinKwargs) :
    (f.addPin k).1.pinpadcounter = f.pinpadcounter + 1 := rfl

theorem Footprint.addPin_number {f : Footprint} {k : PinKwargs} {m : ℤ}
    (hm : k.number = some m) : (f.addPin k).2.number = some m :=
  Pin.init_num (PinKwargs.autoNum_num hm)

theorem Footprint.addPin_x {f : Footprint} {k : PinKwargs} {v : ℚ}
    (hv : k.x = some v) : (f.addPin k).2.x = .val v :=
  Pin.init_x (by rw [PinKwargs.autoNum_x]; exact hv)

theorem Footprint.addPin_y {f : Footprint} {k : PinKwargs} {v : ℚ}
    (hv : k.y = some v) : (f.addPin k).2.y = .val v :=
  Pin.init_y (by rw [PinKwargs.autoNum_y]; exact hv)

theorem Step.app_ok {s : Step} {i : ℕ} {q : ℚ} (h : s.app i = .ok q) :
    q = stepD s i := by
  cases s with
  | scalar r => injection h with h; rw [← h]; rfl
  | tup l =>
    cases l with
    | nil => injection h
    | cons a t => injection h with h; rw [← h]; rfl

theorem stepSum_zero (s : Step) (i : ℕ) : stepSum s i 0 = 0 := by
  simp [stepSum]

theorem stepSum_succ (s : Step) (i j : ℕ) :
    stepSum s i (j + 1) = stepD s i + stepSum s (i + 1) j := by
  unfold stepSum
  rw [List.range_succ_eq_map, List.map_cons, List.sum_cons, List.map_map]
  have hc : ((fun t => stepD s (i + t)) ∘ Nat.succ) = fun t => stepD s (i + 1 + t) := by
    funext t
    simp only [Function.comp_apply]
    congr 1
    omega
  rw [hc]
  simp

theorem Footprint.addPadsAux_spec :
    ∀ (n i : ℕ) (f : Footprint) (k : PadArrayKwargs) (num : ℤ) (dx dy : Step)
      (f' : Footprint) (ps : List Pad),
      f.addPadsAux k num dx dy i n = .ok (f', ps) →
      ps.map Pad.number = (List.range n).map (fun j : ℕ => some (num + (j : ℤ))) ∧
      f'.pinpadcounter = f.pinpadcounter + n := by
  intro n
  induction n with
  | zero =>
    intro i f k num dx dy f' ps h
    unfold Footprint.addPadsAux at h
    injection h with h
    injection h with h1 h2
    subst h1; subst h2
    simp
  | succ n ih =>
    intro i f k num dx dy f' ps h
    unfold Footprint.addPadsAux at h
    split at h
    · injection h
    · rename_i f1 p heq1
      split at h
      · injection h
      · rename_i xv hx
        split at h
        · injection h
        · rename_i sx hsx
          split at h
          · injection h
          · rename_i yv hy
            split at h
            · injection h
            · rename_i sy hsy
              split at h
              · injection h
              · rename_i f2 ps2 heq2
                injection h with h
                injection h with h1 h2
                subst h1; subst h2
                obtain ⟨ihn, ihc⟩ := ih _ _ _ _ _ _ _ _ heq2
                have hp : p.number = some num :=
                  Footprint.addPad_number
                    (show ({ k with number := some num } : PadArrayKwargs).toPad.number
                        = some num by simp [PadArrayKwargs.toPad]) heq1
                have hc1 := (Footprint.addPad_ok heq1).1
                constructor
                · rw [List.map_cons, hp, ihn, List.range_succ_eq_map, List.map_cons,
                    List.map_map]
                  simp only [List.cons.injEq]
                  constructor
                  · norm_num
                  · refine List.map_congr_left ?_
                    intro a _
                    simp only [Function.comp_apply, Nat.succ_eq_add_one]
                    congr 1
                    push_cast
                    ring
                · rw [ihc, hc1]
                  push_cast
                  ring

theorem Footprint.addPinsAux_spec :
    ∀ (n i : ℕ) (f : Footprint) (k : PinArrayKwargs) (num : ℤ) (dx dy : Step)
      (f' : Footprint) (ps : List Pin),
      f.addPinsAux k num dx dy i n = .ok (f', ps) →
      ps.map Pin.number = (List.range n).map (fun j : ℕ => some (num + (j : ℤ))) ∧
      f'.pinpadcounter = f.pinpadcounter + n ∧
      (∀ xv, k.x = some xv →
        ps.map Pin.x = (List.range n).map fun j : ℕ => .val (xv + stepSum dx i j)) ∧
      (∀ yv, k.y = some yv →
        ps.map Pin.y = (List.range n).map fun j : ℕ => .val (yv + stepSum dy i j)) := by
  intro n
  induction n with
  | zero =>
    intro i f k num dx dy f' ps h
    unfold Footprint.addPinsAux at h
    injection h with h
    injection h with h1 h2
    subst h1; subst h2
    simp
  | succ n ih =>
    intro i f k num dx dy f' ps h
    unfold Footprint.addPinsAux at h
    split at h
    · injection h
    · rename_i xv hx
      split at h
      · injection h
      · rename_i sx hsx
        split at h
        · injection h
        · rename_i yv hy
          split at h
          · injection h
          · rename_i sy hsy
            split at h
            · injection h
            · rename_i f2 ps2 heq2
              injection h with h
              injection h with h1 h2
              subst h1; subst h2
              obtain ⟨ihn, ihc, ihx, ihy⟩ := ih _ _ _ _ _ _ _ _ heq2
              have hsx' : sx = stepD dx i := Step.app_ok hsx
              have hsy' : sy = stepD dy i := Step.app_ok hsy
              refine ⟨?_, ?_, ?_, ?_⟩
              · rw [List.map_cons,
                  Footprint.addPin_number
                    (show ({ k with number := some num } : PinArrayKwargs).toPin.number
                        = some num by simp [PinArrayKwargs.toPin]),
                  ihn, List.range_succ_eq_map, List.map_cons, List.map_map]
                simp only [List.cons.injEq]
                constructor
                · norm_num
                · refine List.map_congr_left ?_
                  intro a _
                  simp only [Function.comp_apply, Nat.succ_eq_add_one]
                  congr 1
                  push_cast
                  ring
              · rw [ihc, Footprint.addPin_counter]
                push_cast
                ring
              · intro xv0 hxv0
                rw [hx] at hxv0
                injection hxv0 with hxv0
                subst hxv0
                rw [List.map_cons,
                  Footprint.addPin_x
                    (show ({ k with number := some num } : PinArrayKwargs).toPin.x
                        = some xv by simp [PinArrayKwargs.toPin, hx]),
                  ihx (xv + sx) rfl, List.range_succ_eq_map, List.map_cons, List.map_map]
                simp only [List.cons.injEq]
                constructor
                · simp [stepSum_zero]
                · refine List.map_congr_left ?_
                  intro a _
                  simp only [Function.comp_apply, Nat.succ_eq_add_one]
                  congr 1
                  rw [hsx', stepSum_succ]
                  ring
              · intro yv0 hyv0
                rw [hy] at hyv0
                injection hyv0 with hyv0
                subst hyv0
                rw [List.map_cons,
                  Footprint.addPin_y
                    (show ({ k with number := some num } : PinArrayKwargs).toPin.y
                        = some yv by simp [PinArrayKwargs.toPin, hy]),
                  ihy (yv + sy) rfl, List.range_succ_eq_map, List.map_cons, List.map_map]
                simp only [List.cons.injEq]
                constructor
                · simp [stepSum_zero]
                · refine List.map_congr_left ?_
                  intro a _
                  simp only [Function.comp_apply, Nat.succ_eq_add_one]
                  congr 1
                  rw [hsy', stepSum_succ]
                  ring

theorem polyLoop_some (th : ℚ) :
    ∀ (ps : List (ℚ × ℚ)) (p : ℚ × ℚ),
      polyLoop th ps (some p) = (chainFrom th p ps, some (lastPoint ps p)) := by
  intro ps
  induction ps with
  | nil => intro p; simp [polyLoop, chainFrom, lastPoint]
  | cons q rest ih =>
    intro p
    obtain ⟨qx, qy⟩ := q
    simp [polyLoop, ih, chainFrom, lastPoint]

theorem polyLoop_none (th : ℚ) (ps : List (ℚ × ℚ)) :
    polyLoop th ps none
      = (polyChain th ps,
         match ps with | [] => none | p :: rest => some (lastPoint rest p)) := by
  cases ps with
  | nil => simp [polyLoop, polyChain]
  | cons p rest =>
    obtain ⟨px, py⟩ := p
    simp [polyLoop, polyLoop_some, polyChain]

theorem chainFrom_length (th : ℚ) :
    ∀ (ps : List (ℚ × ℚ)) (p : ℚ × ℚ), (chainFrom th p ps).length = ps.length := by
  intro ps
  induction ps with
  | nil => intro p; rfl
  | cons q rest ih => intro p; simp [chainFrom, ih]

theorem chainFrom_thickness (th : ℚ) :
    ∀ (ps : List (ℚ × ℚ)) (p : ℚ × ℚ) (seg : SilkLine),
      seg ∈ chainFrom th p ps → seg.thickness = th := by
  intro ps
  induction ps with
  | nil => intro p seg hseg; simp [chainFrom] at hseg
  | cons q rest ih =>
    intro p seg hseg
    rw [chainFrom] at hseg
    rcases List.mem_cons.mp hseg with h | h
    · subst h; rfl
    · exact ih q seg h

/-! ### Claim theorems -/

/-- Claim C3 (code bug): constructing a Pad from `left` and `right` as
the two x-axis values, with no `width` and no base, does not succeed
with `width = right - left` as claimed (and as the constructor
docstring promises): the `right` setter reads `self.width`, which was
never set, so construction raises an `AttributeError`. -/
theorem C3_left_right_attr_error :
    Pad.init { PadKwargs.empty with
        left := some 0, right := some 10, top := some 0, height := some 5 }
      = .error .attrError := by
  norm_num [Pad.init, Pad.derivedPhase, Pad.setPrim, Pad.base0, Pad.rightSet,
    PadKwargs.empty]

/-- Claim C10: a SilkArc constructed without the `start_angle` and
`delta_angle` keywords defaults them to 0 and 360 (a full
counterclockwise circle), regardless of how the radii were supplied
(`x_radius`/`y_radius`, `radius`, or `diameter`). -/
theorem C10_arc_defaults (x y : ℚ) (k : SilkArcKwargs)
    (hs : k.start_angle = none) (hd : k.delta_angle = none) :
    (SilkArc.init x y k).start_angle = 0 ∧ (SilkArc.init x y k).delta_angle = 360 := by
  unfold SilkArc.init
  cases hr : k.radius <;> cases hdm : k.diameter <;>
    simp [hr, hdm, hs, hd, SilkArc.radiusSet, SilkArc.diameterSet]

/-- Claim C10 (witness): the defaults at a concrete arc whose radii
come from the `diameter` convenience keyword. -/
theorem C10_witness :
    (SilkArc.init 0 0 { SilkArcKwargs.empty with diameter := some 400 }).start_angle = 0 ∧
    (SilkArc.init 0 0 { SilkArcKwargs.empty with diameter := some 400 }).delta_angle = 360 :=
  C10_arc_defaults 0 0 _ rfl rfl

/-- Claim C7: a Pad constructed from `left, width, top, height` has
`right = left + width`, `bottom = top + height`, and center
`x = left + width/2`, `y = top + height/2` (the midpoints); setting `x`
afterwards leaves `width` unchanged and shifts `left` and `right` by
the same amount. -/
theorem C7_pad_roundtrip (l w t h v : ℚ) :
    Pad.init { PadKwargs.empty with
        left := some l, width := some w, top := some t, height := some h }
      = .ok ⟨.val l, .val w, .val t, .val h, false, "", none⟩ ∧
    (Pad.mk (.val l) (.val w) (.val t) (.val h) false "" none).rightGet = .ok (l + w) ∧
    (Pad.mk (.val l) (.val w) (.val t) (.val h) false "" none).bottomGet = .ok (t + h) ∧
    (Pad.mk (.val l) (.val w) (.val t) (.val h) false "" none).xGet = .ok (l + w / 2) ∧
    (Pad.mk (.val l) (.val w) (.val t) (.val h) false "" none).yGet = .ok (t + h / 2) ∧
    (Pad.mk (.val l) (.val w) (.val t) (.val h) false "" none).xSet v
      = .ok ⟨.val (v - w / 2), .val w, .val t, .val h, false, "", none⟩ ∧
    (Pad.mk (.val (v - w / 2)) (.val w) (.val t) (.val h) false "" none).rightGet
      = .ok (v + w / 2) := by
  refine ⟨?_, ?_, ?_, ?_, ?_, ?_, ?_⟩
  · simp [Pad.init, Pad.derivedPhase, Pad.setPrim, Pad.base0, PadKwargs.empty]
  · rfl
  · rfl
  · simp [Pad.xGet, Pad.rightGet, between, Except.map]; ring
  · simp [Pad.yGet, Pad.bottomGet, between, Except.map]; ring
  · rfl
  · simp [Pad.rightGet]; ring

/-- Claim C4 (counterexample): a polyline built from a single point
with `closed` unset does not fail at all, let alone with an
`InvalidPolyline` error (no such error exists in the code): it
succeeds with an empty segment list. -/
theorem C4_counterexample :
    SilkPolyline.init [((0 : ℚ), (0 : ℚ))] none false = .ok ⟨[]⟩ ∧
    exOk (SilkPolyline.init [((0 : ℚ), (0 : ℚ))] none false) = true := by
  constructor
  · simp [SilkPolyline.init, polyLoop]
  · simp [SilkPolyline.init, polyLoop, exOk]

/-- Claim C4 (amended): polyline construction never raises an
`InvalidPolyline` error.  With `closed` unset it always succeeds and
materializes the connected chain of the supplied points, `n - 1`
segments for `n` points (so also 0 segments for fewer than 2 points),
all sharing one thickness; with `closed=True` and `n ≥ 2` it succeeds
with the chain plus one closing segment from the last point back to
the first (`n` segments); with `closed=True` and fewer than 2 points
it fails (with a `TypeError` or `IndexError`). -/
theorem C4_polyline_amended (points : List (ℚ × ℚ)) (th : Option ℚ) :
    (SilkPolyline.init points th false
      = .ok ⟨polyChain (th.getD SilkLine.defaultThickness) points⟩) ∧
    ((polyChain (th.getD SilkLine.defaultThickness) points).length
      = points.length - 1) ∧
    (∀ seg, seg ∈ polyChain (th.getD SilkLine.defaultThickness) points →
      seg.thickness = th.getD SilkLine.defaultThickness) ∧
    (∀ p₁ p₂ rest, points = p₁ :: p₂ :: rest →
      SilkPolyline.init points th true
        = .ok ⟨polyChain (th.getD SilkLine.defaultThickness) points
            ++ [⟨(lastPoint (p₂ :: rest) p₁).1, (lastPoint (p₂ :: rest) p₁).2,
                 p₁.1, p₁.2, th.getD SilkLine.defaultThickness⟩]⟩) ∧
    (points.length < 2 → ∀ s, SilkPolyline.init points th true ≠ .ok s) := by
  refine ⟨?_, ?_, ?_, ?_, ?_⟩
  · simp [SilkPolyline.init, polyLoop_none]
  · cases points with
    | nil => simp [polyChain]
    | cons p rest => simp [polyChain, chainFrom_length]
  · intro seg hseg
    cases points with
    | nil => simp [polyChain] at hseg
    | cons p rest =>
      exact chainFrom_thickness _ rest p seg (by simpa [polyChain] using hseg)
  · intro p₁ p₂ rest hp
    subst hp
    simp [SilkPolyline.init, polyLoop_none, polyChain, chainFrom]
  · intro hlen s
    cases points with
    | nil => simp [SilkPolyline.init, polyLoop_none]
    | cons p rest =>
      cases rest with
      | nil => simp [SilkPolyline.init, polyLoop_none, polyChain, chainFrom]
      | cons q rest2 => simp at hlen; omega

/-- Claim C4 (witness): a closed triangle of three points expands into
three segments, the last one joining the last point back to the
first. -/
theorem C4_witness :
    SilkPolyline.init [((0 : ℚ), (0 : ℚ)), (10, 0), (10, 10)] none true
      = .ok ⟨[⟨0, 0, 10, 0, 10⟩, ⟨10, 0, 10, 10, 10⟩, ⟨10, 10, 0, 0, 10⟩]⟩ := by
  have h := (C4_polyline_amended [((0 : ℚ), (0 : ℚ)), (10, 0), (10, 10)] none).2.2.2.1
    (0, 0) (10, 0) [(10, 10)] rfl
  simpa [polyChain, chainFrom, lastPoint, SilkLine.defaultThickness] using h

/-- Claim C1 (counterexample): `addPads(3, number=7, x=0, y=0, dx=1,
width=1, height=1)` on a fresh footprint numbers its three pads 7, 8, 9
(the running number is incremented after every placement even though an
explicit number was passed), so the second pad carries 8, not 7; the
counter does advance by 3, from 1 to 4. -/
theorem C1_counterexample :
    (match (Footprint.create "t" none).addPads 3
        { PadArrayKwargs.empty with
            width := some 1, height := some 1, x := some 0, y := some 0,
            number := some 7, dx := some (.scalar 1) } with
     | .ok r => (r.2.map Pad.number, r.1.pinpadcounter)
     | .error _ => ([], 0)) = ([some 7, some 8, some 9], 4) ∧
    some (8 : ℤ) ≠ some 7 := by
  constructor
  · norm_num [Footprint.addPads, Footprint.addPadsAux, Footprint.addPad, Footprint.create,
      Pad.init, Pad.derivedPhase, Pad.setPrim, Pad.base0, Pad.xSet, Pad.ySet,
      PadArrayKwargs.toPad, PadArrayKwargs.empty, PadKwargs.autoNum, Step.app]
  · decide

/-- Claim C1 (amended): for every array placement `add_pads(count, ...)`
or `add_pins(count, ...)` that passes an explicit number `n`, the
`count` placed shapes carry the consecutive numbers `n, n+1, ...,
n+count-1` (the first one carries `n`; they do not all carry `n`), and
the auto-number counter is nevertheless incremented `count` times. -/
theorem C1_array_explicit_number (count : ℕ) (n : ℤ) :
    (∀ (f : Footprint) (k : PadArrayKwargs) (f' : Footprint) (ps : List Pad),
      k.number = some n →
      f.addPads count k = .ok (f', ps) →
      ps.map Pad.number = (List.range count).map (fun j : ℕ => some (n + (j : ℤ))) ∧
      f'.pinpadcounter = f.pinpadcounter + count) ∧
    (∀ (f : Footprint) (k : PinArrayKwargs) (f' : Footprint) (ps : List Pin),
      k.number = some n →
      f.addPins count k = .ok (f', ps) →
      ps.map Pin.number = (List.range count).map (fun j : ℕ => some (n + (j : ℤ))) ∧
      f'.pinpadcounter = f.pinpadcounter + count) := by
  constructor
  · intro f k f' ps hn h
    unfold Footprint.addPads at h
    rw [hn, Option.getD_some] at h
    exact Footprint.addPadsAux_spec _ _ _ _ _ _ _ _ _ h
  · intro f k f' ps hn h
    unfold Footprint.addPins at h
    rw [hn, Option.getD_some] at h
    obtain ⟨h1, h2, _, _⟩ := Footprint.addPinsAux_spec _ _ _ _ _ _ _ _ _ h
    exact ⟨h1, h2⟩

/-- Claim C1 (witness): the amended statement evaluated on the concrete
run of the counterexample (three pads, explicit number 7). -/
theorem C1_witness :
    ([(⟨.val (-(1 / 2)), .val 1, .val (-(1 / 2)), .val 1, false, "", some 7⟩ : Pad),
      ⟨.val (1 / 2), .val 1, .val (-(1 / 2)), .val 1, false, "", some 8⟩,
      ⟨.val (3 / 2), .val 1, .val (-(1 / 2)), .val 1, false, "", some 9⟩].map Pad.number
        = (List.range 3).map (fun j : ℕ => some ((7 : ℤ) + (j : ℤ)))) ∧
    (⟨"t", "", 0, 0, 0, 0, 0, 100,
        [.pad ⟨.val (-(1 / 2)), .val 1, .val (-(1 / 2)), .val 1, false, "", some 7⟩,
         .pad ⟨.val (1 / 2), .val 1, .val (-(1 / 2)), .val 1, false, "", some 8⟩,
         .pad ⟨.val (3 / 2), .val 1, .val (-(1 / 2)), .val 1, false, "", some 9⟩],
        4⟩ : Footprint).pinpadcounter
      = (Footprint.create "t" none).pinpadcounter + ((3 : ℕ) : ℤ) :=
  (C1_array_explicit_number 3 7).1 (Footprint.create "t" none)
    { PadArrayKwargs.empty with
        width := some 1, height := some 1, x := some 0, y := some 0,
        number := some 7, dx := some (.scalar 1) }
    ⟨"t", "", 0, 0, 0, 0, 0, 100,
      [.pad ⟨.val (-(1 / 2)), .val 1, .val (-(1 / 2)), .val 1, false, "", some 7⟩,
       .pad ⟨.val (1 / 2), .val 1, .val (-(1 / 2)), .val 1, false, "", some 8⟩,
       .pad ⟨.val (3 / 2), .val 1, .val (-(1 / 2)), .val 1, false, "", some 9⟩],
      4⟩
    [⟨.val (-(1 / 2)), .val 1, .val (-(1 / 2)), .val 1, false, "", some 7⟩,
     ⟨.val (1 / 2), .val 1, .val (-(1 / 2)), .val 1, false, "", some 8⟩,
     ⟨.val (3 / 2), .val 1, .val (-(1 / 2)), .val 1, false, "", some 9⟩]
    rfl
    (by norm_num [Footprint.addPads, Footprint.addPadsAux, Footprint.addPad,
      Footprint.create, Pad.init, Pad.derivedPhase, Pad.setPrim, Pad.base0, Pad.xSet,
      Pad.ySet, PadArrayKwargs.toPad, PadArrayKwargs.empty, PadKwargs.autoNum, Step.app])

/-- Claim C5: every `add_pins(count, ...)` call without an explicit
number places `count` pins numbered consecutively from the current
value of the auto-number counter, stepping the start position after
each placement by the step value of the 0-based index (a tuple step is
indexed by position parity through `i % len`); the counter advances by
`count`. -/
theorem C5_pins_anon_number (f : Footprint) (count : ℕ) (k : PinArrayKwargs)
    (f' : Footprint) (ps : List Pin)
    (hn : k.number = none) (h : f.addPins count k = .ok (f', ps)) :
    ps.map Pin.number
      = (List.range count).map (fun j : ℕ => some (f.pinpadcounter + (j : ℤ))) ∧
    (∀ xv, k.x = some xv →
      ps.map Pin.x = (List.range count).map fun j : ℕ =>
        .val (xv + stepSum (k.dx.getD (.scalar 0)) 0 j)) ∧
    (∀ yv, k.y = some yv →
      ps.map Pin.y = (List.range count).map fun j : ℕ =>
        .val (yv + stepSum (k.dy.getD (.scalar 0)) 0 j)) ∧
    f'.pinpadcounter = f.pinpadcounter + count := by
  unfold Footprint.addPins at h
  rw [hn, Option.getD_none] at h
  obtain ⟨h1, h2, h3, h4⟩ := Footprint.addPinsAux_spec _ _ _ _ _ _ _ _ _ h
  exact ⟨h1, h3, h4, h2⟩

/-- Claim C5 (witness): `addPins(4, x=0, y=0, dx=10, dy=(5,-5), hole=1,
diameter=2)` on a fresh footprint yields pins at x = 0, 10, 20, 30 and
y = 0, 5, 0, 5 with numbers 1, 2, 3, 4, and the counter ends at 5. -/
theorem C5_witness :
    ([(⟨.val 0, .val 0, .val 1, .val 2, true, "", some 1⟩ : Pin),
      ⟨.val 10, .val 5, .val 1, .val 2, true, "", some 2⟩,
      ⟨.val 20, .val 0, .val 1, .val 2, true, "", some 3⟩,
      ⟨.val 30, .val 5, .val 1, .val 2, true, "", some 4⟩].map Pin.number
        = (List.range 4).map (fun j : ℕ =>
            some ((Footprint.create "t" none).pinpadcounter + (j : ℤ)))) ∧
    ([(⟨.val 0, .val 0, .val 1, .val 2, true, "", some 1⟩ : Pin),
      ⟨.val 10, .val 5, .val 1, .val 2, true, "", some 2⟩,
      ⟨.val 20, .val 0, .val 1, .val 2, true, "", some 3⟩,
      ⟨.val 30, .val 5, .val 1, .val 2, true, "", some 4⟩].map Pin.x
        = (List.range 4).map fun j : ℕ =>
            .val ((0 : ℚ) + stepSum (Step.scalar 10) 0 j)) ∧
    ([(⟨.val 0, .val 0, .val 1, .val 2, true, "", some 1⟩ : Pin),
      ⟨.val 10, .val 5, .val 1, .val 2, true, "", some 2⟩,
      ⟨.val 20, .val 0, .val 1, .val 2, true, "", some 3⟩,
      ⟨.val 30, .val 5, .val 1, .val 2, true, "", some 4⟩].map Pin.y
        = (List.range 4).map fun j : ℕ =>
            .val ((0 : ℚ) + stepSum (Step.tup [5, -5]) 0 j)) ∧
    (⟨"t", "", 0, 0, 0, 0, 0, 100,
        [.pin ⟨.val 0, .val 0, .val 1, .val 2, true, "", some 1⟩,
         .pin ⟨.val 10, .val 5, .val 1, .val 2, true, "", some 2⟩,
         .pin ⟨.val 20, .val 0, .val 1, .val 2, true, "", some 3⟩,
         .pin ⟨.val 30, .val 5, .val 1, .val 2, true, "", some 4⟩],
        5⟩ : Footprint).pinpadcounter
      = (Footprint.create "t" none).pinpadcounter + ((4 : ℕ) : ℤ) := by
  have h := C5_pins_anon_number (Footprint.create "t" none) 4
    { PinArrayKwargs.empty with
        x := some 0, y := some 0, hole := some 1, diameter := some 2,
        dx := some (.scalar 10), dy := some (.tup [5, -5]) }
    ⟨"t", "", 0, 0, 0, 0, 0, 100,
      [.pin ⟨.val 0, .val 0, .val 1, .val 2, true, "", some 1⟩,
       .pin ⟨.val 10, .val 5, .val 1, .val 2, true, "", some 2⟩,
       .pin ⟨.val 20, .val 0, .val 1, .val 2, true, "", some 3⟩,
       .pin ⟨.val 30, .val 5, .val 1, .val 2, true, "", some 4⟩],
      5⟩
    [⟨.val 0, .val 0, .val 1, .val 2, true, "", some 1⟩,
     ⟨.val 10, .val 5, .val 1, .val 2, true, "", some 2⟩,
     ⟨.val 20, .val 0, .val 1, .val 2, true, "", some 3⟩,
     ⟨.val 30, .val 5, .val 1, .val 2, true, "", some 4⟩]
    rfl
    (by norm_num [Footprint.addPins, Footprint.addPinsAux, Footprint.addPin,
      Footprint.create, Pin.init, Pin.base0, PinArrayKwargs.toPin, PinArrayKwargs.empty,
      PinKwargs.autoNum, Step.app])
  exact ⟨h.1, h.2.1 0 rfl, h.2.2.1 0 rfl, h.2.2.2⟩

/-- Claim C6: a Pad or Pin built with `base=p1` and exactly one
inheritable attribute overridden agrees with `p1` on every inheritable
attribute except the overridden one; and since construction copies the
attribute values of the base rather than keeping a reference, a later
in-place mutation of a stored shape (an update of the owning shape
list entry) leaves every other stored shape, derived ones included,
unchanged. -/
theorem C6_base_inheritance :
    (∀ (b : Pad) (bl bw bt bh : ℚ),
      b.left = .val bl → b.width = .val bw → b.top = .val bt → b.height = .val bh →
      (∀ v : ℚ, Pad.init { PadKwargs.empty with base := some b, left := some v }
        = .ok ⟨.val v, .val bw, .val bt, .val bh, b.round, b.name, b.number⟩) ∧
      (∀ v : ℚ, Pad.init { PadKwargs.empty with base := some b, width := some v }
        = .ok ⟨.val bl, .val v, .val bt, .val bh, b.round, b.name, b.number⟩) ∧
      (∀ v : ℚ, Pad.init { PadKwargs.empty with base := some b, top := some v }
        = .ok ⟨.val bl, .val bw, .val v, .val bh, b.round, b.name, b.number⟩) ∧
      (∀ v : ℚ, Pad.init { PadKwargs.empty with base := some b, height := some v }
        = .ok ⟨.val bl, .val bw, .val bt, .val v, b.round, b.name, b.number⟩) ∧
      (∀ m : ℤ, Pad.init { PadKwargs.empty with base := some b, number := some m }
        = .ok ⟨.val bl, .val bw, .val bt, .val bh, b.round, b.name, some m⟩) ∧
      (∀ s : String, Pad.init { PadKwargs.empty with base := some b, name := some s }
        = .ok ⟨.val bl, .val bw, .val bt, .val bh, b.round, s, b.number⟩) ∧
      (∀ r : Bool, Pad.init { PadKwargs.empty with base := some b, round := some r }
        = .ok ⟨.val bl, .val bw, .val bt, .val bh, r, b.name, b.number⟩)) ∧
    (∀ (b : Pin) (bx byv bhole bd : ℚ),
      b.x = .val bx → b.y = .val byv → b.hole = .val bhole → b.diameter = .val bd →
      (∀ v : ℚ, Pin.init { PinKwargs.empty with base := some b, x := some v }
        = ⟨.val v, .val byv, .val bhole, .val bd, b.round, b.name, b.number⟩) ∧
      (∀ v : ℚ, Pin.init { PinKwargs.empty with base := some b, y := some v }
        = ⟨.val bx, .val v, .val bhole, .val bd, b.round, b.name, b.number⟩) ∧
      (∀ v : ℚ, Pin.init { PinKwargs.empty with base := some b, hole := some v }
        = ⟨.val bx, .val byv, .val v, .val bd, b.round, b.name, b.number⟩) ∧
      (∀ v : ℚ, Pin.init { PinKwargs.empty with base := some b, diameter := some v }
        = ⟨.val bx, .val byv, .val bhole, .val v, b.round, b.name, b.number⟩) ∧
      (∀ m : ℤ, Pin.init { PinKwargs.empty with base := some b, number := some m }
        = ⟨.val bx, .val byv, .val bhole, .val bd, b.round, b.name, some m⟩) ∧
      (∀ s : String, Pin.init { PinKwargs.empty with base := some b, name := some s }
        = ⟨.val bx, .val byv, .val bhole, .val bd, b.round, s, b.number⟩) ∧
      (∀ r : Bool, Pin.init { PinKwargs.empty with base := some b, round := some r }
        = ⟨.val bx, .val byv, .val bhole, .val bd, r, b.name, b.number⟩)) ∧
    (∀ (f : Footprint) (i j : ℕ) (s : FShape), i ≠ j →
      (f.updateShape i s).shapes[j]? = f.shapes[j]?) := by
  refine ⟨?_, ?_, ?_⟩
  · intro b bl bw bt bh h1 h2 h3 h4
    refine ⟨?_, ?_, ?_, ?_, ?_, ?_, ?_⟩ <;> intro v <;>
      simp [Pad.init, Pad.derivedPhase, Pad.setPrim, Pad.withBase, Attr.fromBase,
        h1, h2, h3, h4, PadKwargs.empty]
  · intro b bx byv bhole bd h1 h2 h3 h4
    refine ⟨?_, ?_, ?_, ?_, ?_, ?_, ?_⟩ <;> intro v <;>
      simp [Pin.init, Pin.withBase, Attr.fromBase, h1, h2, h3, h4, PinKwargs.empty]
  · intro f i j s hij
    simp only [Footprint.updateShape]
    exact List.getElem?_set_ne hij

/-- Claim C6 (witness): a concrete pad derived from a base with one
override, a concrete pin likewise, and an update of one stored shape
leaving the other entry of the shape list unchanged. -/
theorem C6_witness :
    (Pad.init { PadKwargs.empty with
        base := some ⟨.val 0, .val 1, .val 2, .val 3, false, "nm", some 1⟩,
        number := some 5 }
      = .ok ⟨.val 0, .val 1, .val 2, .val 3, false, "nm", some 5⟩) ∧
    (Pin.init { PinKwargs.empty with
        base := some ⟨.val 0, .val 0, .val 1, .val 2, true, "", some 1⟩,
        x := some 9 }
      = ⟨.val 9, .val 0, .val 1, .val 2, true, "", some 1⟩) ∧
    (({ Footprint.create "t" none with
          shapes := [.pin ⟨.val 0, .val 0, .val 1, .val 2, true, "", some 1⟩,
                     .pin ⟨.val 9, .val 0, .val 1, .val 2, true, "", some 1⟩] }
        : Footprint).updateShape 0
          (.pin ⟨.val 7, .val 0, .val 1, .val 2, true, "", some 1⟩)).shapes[1]?
      = ({ Footprint.create "t" none with
          shapes := [.pin ⟨.val 0, .val 0, .val 1, .val 2, true, "", some 1⟩,
                     .pin ⟨.val 9, .val 0, .val 1, .val 2, true, "", some 1⟩] }
        : Footprint).shapes[1]? :=
  ⟨(C6_base_inheritance.1 ⟨.val 0, .val 1, .val 2, .val 3, false, "nm", some 1⟩
      0 1 2 3 rfl rfl rfl rfl).2.2.2.2.1 5,
   (C6_base_inheritance.2.1 ⟨.val 0, .val 0, .val 1, .val 2, true, "", some 1⟩
      0 0 1 2 rfl rfl rfl rfl).1 9,
   C6_base_inheritance.2.2 _ 0 1 _ (by decide)⟩

/-- Claim C8 (code bug): serialization of a resolved Pad never reaches
the point of orienting anything.  `Pad.pcb_repr` does evaluate the
branch on the strict comparison `width > height` and the attribute
reads of the chosen branch, but the return statement then looks up the
name-mangled, undefined `_Pad__mil_to_unit` — a `NameError` on both
branches, for every resolved pad — where the claim says a strictly
wider pad serializes as a horizontal segment and every other pad,
ties included, via the vertical branch. -/
theorem C8_orientation_never_emits (p : Pad) (l w t h tx ty : ℚ)
    (hl : p.left = .val l) (hw : p.width = .val w)
    (ht : p.top = .val t) (hh : p.height = .val h) :
    p.pcbRepr tx ty = .error .nameError := by
  simp only [Pad.pcbRepr, hl, hw, ht, hh, Pad.xGet, Pad.yGet, Pad.rightGet,
    Pad.bottomGet, between]
  split <;> rfl

/-- Claim C8 (witness): the no-record fact evaluated at a concrete
wider-than-tall pad and at a concrete square pad (the two inputs on
which the claim predicted the horizontal and the vertical branch). -/
theorem C8_witness :
    ((⟨.val 0, .val 4, .val 0, .val 2, false, "", some 1⟩ : Pad).left
        = .val 0 ∧
      (⟨.val 0, .val 4, .val 0, .val 2, false, "", some 1⟩ : Pad).pcbRepr 0 0
        = .error .nameError) ∧
    ((⟨.val 0, .val 3, .val 0, .val 3, true, "nm", some 2⟩ : Pad).pcbRepr 0 0
        = .error .nameError) :=
  ⟨⟨rfl, C8_orientation_never_emits
      ⟨.val 0, .val 4, .val 0, .val 2, false, "", some 1⟩ 0 4 0 2 0 0
      rfl rfl rfl rfl⟩,
   C8_orientation_never_emits
      ⟨.val 0, .val 3, .val 0, .val 3, true, "nm", some 2⟩ 0 3 0 3 0 0
      rfl rfl rfl rfl⟩

/-- Claim C9 (code bug): no serialized Pad or Pin record ever carries a
flags field, because no record is ever produced.  `Pin.pcb_repr` raises
`NameError` at its first format argument (the mangled
`_Pin__mil_to_unit` is undefined, as is the `_Pin__self` its name field
would need), and `Pad.pcb_repr` never returns successfully on any
input — where the claim describes a Pad flags field of 0x100 or 0 and a
Pin flags field with bit 0x1 always set. -/
theorem C9_no_flags :
    (∀ (q : Pin) (tx ty : ℚ), q.pcbRepr tx ty = .error .nameError) ∧
    (∀ (p : Pad) (tx ty : ℚ), exOk (p.pcbRepr tx ty) = false) := by
  refine ⟨fun q tx ty => rfl, fun p tx ty => ?_⟩
  unfold Pad.pcbRepr
  repeat' split
  all_goals rfl

/-- Claim C2 (code bug): on a footprint whose only shape is a pad of
width 4 and height 2 centered at (0, 0), with the mark set on that pad,
no Pad record with coordinates (0, 0) — or any record at all — is ever
serialized.  `mark` itself succeeds (the pad center becomes the mark
point), but `str(f)` raises `NameError` at the header (the mangled
`_Footprint__mil_to_unit` is undefined), and even the body join alone
would raise `NameError` inside `Pad.pcb_repr` (the mangled
`_Pad__mil_to_unit` is undefined) before the translated coordinates
are formed. -/
theorem C2_serialize_name_error :
    ((({ Footprint.create "t" none with
           shapes := [.pad ⟨.val (-2), .val 4, .val (-1), .val 2, false, "", none⟩] }
         : Footprint).markPad
         ⟨.val (-2), .val 4, .val (-1), .val 2, false, "", none⟩).bind
       Footprint.serialize
       = .error .nameError) ∧
    ((({ Footprint.create "t" none with
           shapes := [.pad ⟨.val (-2), .val 4, .val (-1), .val 2, false, "", none⟩] }
         : Footprint).markPad
         ⟨.val (-2), .val 4, .val (-1), .val 2, false, "", none⟩).bind
       Footprint.render
       = .error .nameError) := by
  constructor
  · norm_num [Footprint.markPad, Footprint.serialize, Footprint.header,
      Footprint.create, Pad.xGet, Pad.yGet, Pad.rightGet, Pad.bottomGet, between,
      Except.map, Except.bind]
  · norm_num [Footprint.markPad, Footprint.render, Footprint.create, Pad.xGet,
      Pad.yGet, Pad.rightGet, Pad.bottomGet, between, FShape.render, Pad.pcbRepr,
      Except.map, Except.bind, renderShapes]
